import Mathlib

/-!
Verification development for the OpenMM simulation application of deepdrivemd
(`deepdrivemd/applications/openmm_simulation/app.py`).

The embedding models:
  * the platform probe and `configure_simulation`,
  * the simulation lifecycle manager of `MDSimulationApplication`
    (`init_simulation`, `init_continue_simulation`, `init_simulation_from_pdb`,
    `init_simulation_from_restart`, `initialize_run`),
  * the `run` entry point's step/report arithmetic and reporter setup,
  * the trajectory analysis loop of `analyze_simulation`.

External collaborators (OpenMM, MDAnalysis, filesystem) are modelled by their
narrow contracts: an engine is a record of the inputs it was built from, a
directory is a list of file names, trajectories are lists of frames, and the
MDAnalysis RMSD call is an abstract function parameter.  Rational numbers
stand in for the floating point quantities; Python's `int()` truncation is
modelled exactly on rationals.
-/

namespace MDApp

/-- A filesystem path, split into the containing directory and the file name
(`Path.parent` / `Path.name` in the Python code). -/
structure FsPath where
  dir : String
  name : String
deriving DecidableEq, Repr

/-- A source run directory for `SimulationFromRestart`: its own name
(`sim_dir.name`, the run identifier), the file names it contains (in
filesystem glob order) and the number of frames of the trajectory file
inside it. -/
structure SimDir where
  name : String
  files : List String
  nframes : Nat
deriving DecidableEq, Repr

/-- `sim_dir.glob ("*" ++ ext)`: the files of the directory whose name ends
with the extension, in directory order (the suffix test works on the
character lists of the names). -/
def globExt (d : SimDir) (ext : String) : List String :=
  d.files.filter (fun f => List.isSuffixOf ext.data f.data)

/-- The fields of `MDSimulationSettings` consumed by the code under
verification.  All numeric fields are rationals carrying the unit named in
the field name, as in the Python settings class. -/
structure MDSimulationSettings where
  solvent_type : String
  /-- Modelled from the spec: the configuration surface carries a
  compute-device index (the settings class itself is not under `src/`). -/
  gpu_index : Nat
  dt_ps : ℚ
  temperature_kelvin : ℚ
  heat_bath_friction_coef : ℚ
  report_interval_ps : ℚ
  simulation_length_ns : ℚ
  mda_selection : String
  cutoff_angstrom : ℚ
deriving DecidableEq, Repr

/-- Which accelerator platforms the OpenMM installation reports available;
the probe in `configure_simulation` tries CUDA, then OpenCL, then CPU. -/
structure PlatformAvail where
  cuda : Bool
  opencl : Bool
deriving DecidableEq, Repr

/-- The platform probe of `configure_simulation`: try CUDA (device index and
mixed precision in the properties), then OpenCL (device index only), then
CPU (empty properties). -/
def select_platform (avail : PlatformAvail) (gpu_index : Nat) :
    String × List (String × String) :=
  if avail.cuda then
    ("CUDA", [("DeviceIndex", toString gpu_index), ("CudaPrecision", "mixed")])
  else if avail.opencl then
    ("OpenCL", [("DeviceIndex", toString gpu_index)])
  else
    ("CPU", [])

/-- An OpenMM reporter attached to a simulation: `app.DCDReporter` or
`app.StateDataReporter`, with its output file and report interval. -/
inductive Reporter where
  | dcd (file : FsPath) (reportInterval : Int)
  | stateData (file : FsPath) (reportInterval : Int)
deriving DecidableEq, Repr

/-- The engine-native simulation object (`app.Simulation`), modelled as the
record of the inputs it was configured from plus its mutable reporter
list. -/
structure Simulation where
  pdb_file : FsPath
  top_file : Option FsPath
  solvent_type : String
  platformName : String
  platformProperties : List (String × String)
  dt_ps : ℚ
  temperature_kelvin : ℚ
  heat_bath_friction_coef : ℚ
  reporters : List Reporter
deriving DecidableEq, Repr

/-- The Python exceptions the modelled code can raise. -/
inductive AppError where
  | runtimeError (msg : String)
  | assertionError
  | stopIteration
  | indexError
  | valueError (msg : String)
deriving DecidableEq, Repr

/-- `configure_simulation`: probe the platform, branch on the solvent type
(the `implicit` branch accepts an optional topology; the `explicit` branch
asserts a topology is present and validates the barostat name), and return
the configured simulation with an empty reporter list. -/
def configure_simulation (avail : PlatformAvail) (pdb_file : FsPath)
    (top_file : Option FsPath) (solvent_type : String) (gpu_index : Nat)
    (dt_ps temperature_kelvin heat_bath_friction_coef : ℚ)
    (explicit_barostat : String) : Except AppError Simulation :=
  let pp := select_platform avail gpu_index
  if solvent_type = "implicit" then
    Except.ok
      { pdb_file, top_file, solvent_type,
        platformName := pp.1, platformProperties := pp.2,
        dt_ps, temperature_kelvin, heat_bath_friction_coef, reporters := [] }
  else if solvent_type = "explicit" then
    match top_file with
    | none => Except.error AppError.assertionError
    | some t =>
      if explicit_barostat = "MonteCarloBarostat"
          ∨ explicit_barostat = "MonteCarloAnisotropicBarostat" then
        Except.ok
          { pdb_file, top_file := some t, solvent_type,
            platformName := pp.1, platformProperties := pp.2,
            dt_ps, temperature_kelvin, heat_bath_friction_coef, reporters := [] }
      else
        Except.error (AppError.valueError
          ("Invalid explicit_barostat option: " ++ explicit_barostat))
  else
    Except.error AppError.assertionError

/-- Observable side effects of the lifecycle manager, recorded as a trace:
file copies into the working directory, the single-frame structure
extraction, and the release/build/install events on the cached engine. -/
inductive Action where
  | copyToWorkdir (src dst : FsPath)
  | writePdbFrame (src : FsPath) (frame : Nat) (out : FsPath)
  | releaseEngine
  | buildEngine
  | installEngine
deriving DecidableEq, Repr

/-- The mutable state of `MDSimulationApplication`: the cached simulation
object (`self.sim`), the cached structure/topology paths and the current
working directory. -/
structure AppState where
  sim : Option Simulation
  pdb_file : Option FsPath
  top_file : Option FsPath
  workdir : String
deriving DecidableEq, Repr

/-- Modelled from the spec: `Application.copy_to_workdir` (in
`deepdrivemd.utils`, not under `src/`) copies the given file into the
current working directory and returns the new path; `None` passes
through. -/
def copy_to_workdir (workdir : String) : Option FsPath → Option FsPath
  | none => none
  | some p => some ⟨workdir, p.name⟩

/-- The file-creation trace of one `copy_to_workdir` call. -/
def copyActions (workdir : String) : Option FsPath → List Action
  | none => []
  | some p => [Action.copyToWorkdir p ⟨workdir, p.name⟩]

/-- `MDSimulationApplication.init_simulation`: release the cached engine if
one exists (`del self.sim`), then build a new engine via
`configure_simulation` (with the literal device index `0` and the default
barostat, as in the source) and install it in the cache. -/
def init_simulation (avail : PlatformAvail) (cfg : MDSimulationSettings)
    (st : AppState) (pdb_file : FsPath) (top_file : Option FsPath) :
    Except AppError (AppState × List Action) :=
  let rel := if st.sim.isSome then [Action.releaseEngine] else []
  match configure_simulation avail pdb_file top_file cfg.solvent_type 0
      cfg.dt_ps cfg.temperature_kelvin cfg.heat_bath_friction_coef
      "MonteCarloBarostat" with
  | Except.error e => Except.error e
  | Except.ok s =>
      Except.ok ({ st with sim := some s },
        rel ++ [Action.buildEngine, Action.installEngine])

/-- `MDSimulationApplication.init_continue_simulation`: fail with a
`RuntimeError` when no simulation is cached; otherwise assert a cached
structure path exists and copy the cached structure/topology files into the
current working directory. -/
def init_continue_simulation (st : AppState) :
    Except AppError (AppState × List Action) :=
  match st.sim with
  | none =>
      Except.error (AppError.runtimeError
        "Tried to continue a simulation that does not exist.")
  | some _ =>
      match st.pdb_file with
      | none => Except.error AppError.assertionError
      | some p =>
          Except.ok
            ({ st with
                pdb_file := copy_to_workdir st.workdir (some p),
                top_file := copy_to_workdir st.workdir st.top_file },
              copyActions st.workdir (some p)
                ++ copyActions st.workdir st.top_file)

/-- `MDSimulationApplication.init_simulation_from_pdb`: copy the supplied
structure/topology files into the working directory, assert the structure
path is set, and rebuild the cached engine from the copies. -/
def init_simulation_from_pdb (avail : PlatformAvail)
    (cfg : MDSimulationSettings) (st : AppState)
    (start_pdb : FsPath) (start_top : Option FsPath) :
    Except AppError (AppState × List Action) :=
  let st1 := { st with
      pdb_file := copy_to_workdir st.workdir (some start_pdb),
      top_file := copy_to_workdir st.workdir start_top }
  match st1.pdb_file with
  | none => Except.error AppError.assertionError
  | some p =>
      match init_simulation avail cfg st1 p st1.top_file with
      | Except.error e => Except.error e
      | Except.ok (st2, acts) =>
          Except.ok (st2,
            copyActions st.workdir (some start_pdb)
              ++ copyActions st.workdir start_top ++ acts)

/-- `f"{frame:06}"`: the decimal digits of the frame index, zero padded on
the left to at least six characters. -/
def pad6 (n : Nat) : String :=
  let s := toString n
  String.mk (List.replicate (6 - s.length) '0') ++ s

/-- `MDSimulationApplication.init_simulation_from_restart`: locate the
structure and trajectory files of the source run directory by extension
(`next` of the glob fails when absent), locate the optional topology by
trying `*.top` then `*.prmtop` (first match wins) and copy it into the
working directory, extract the requested frame into a new structure file
named `<source-run-identifier>_frame<6-digit-index>.pdb` (an out-of-range
frame index is an error), and rebuild the cached engine from the extracted
structure. -/
def init_simulation_from_restart (avail : PlatformAvail)
    (cfg : MDSimulationSettings) (st : AppState)
    (sim_dir : SimDir) (frame : Nat) :
    Except AppError (AppState × List Action) :=
  match (globExt sim_dir ".pdb").head? with
  | none => Except.error AppError.stopIteration
  | some old_pdb_name =>
      match (globExt sim_dir ".dcd").head? with
      | none => Except.error AppError.stopIteration
      | some _dcd_name =>
          let top_found : Option String :=
            match (globExt sim_dir ".top").head? with
            | some t => some t
            | none => (globExt sim_dir ".prmtop").head?
          let top_path := top_found.map (fun f => (⟨sim_dir.name, f⟩ : FsPath))
          let st1 := { st with top_file := copy_to_workdir st.workdir top_path }
          let pdb_name := sim_dir.name ++ "_frame" ++ pad6 frame ++ ".pdb"
          let new_pdb : FsPath := ⟨st.workdir, pdb_name⟩
          if frame < sim_dir.nframes then
            let st2 := { st1 with pdb_file := some new_pdb }
            match init_simulation avail cfg st2 new_pdb st2.top_file with
            | Except.error e => Except.error e
            | Except.ok (st3, acts) =>
                Except.ok (st3,
                  copyActions st.workdir top_path
                    ++ [Action.writePdbFrame ⟨sim_dir.name, old_pdb_name⟩
                          frame new_pdb]
                    ++ acts)
          else
            Except.error AppError.indexError

/-- `SimulationStartType`: the closed start-condition union
(`ContinueSimulation` / `SimulationFromPDB` / `SimulationFromRestart`). -/
inductive SimulationStartType where
  | continueSimulation
  | simulationFromPDB (pdb_file : FsPath) (top_file : Option FsPath)
  | simulationFromRestart (sim_dir : SimDir) (sim_frame : Nat)
deriving DecidableEq, Repr

/-- `MDSimulationApplication.initialize_run`: dispatch on the start
condition variant. -/
def initialize_run (avail : PlatformAvail) (cfg : MDSimulationSettings)
    (st : AppState) : SimulationStartType →
    Except AppError (AppState × List Action)
  | SimulationStartType.continueSimulation => init_continue_simulation st
  | SimulationStartType.simulationFromPDB p t =>
      init_simulation_from_pdb avail cfg st p t
  | SimulationStartType.simulationFromRestart d f =>
      init_simulation_from_restart avail cfg st d f

/-! ### The `run` entry point: step/report arithmetic and reporter setup -/

/-- Python's `int()` on an exact rational: truncation toward zero. -/
def pyInt (q : ℚ) : Int :=
  if 0 ≤ q then ⌊q⌋ else ⌈q⌉

/-- `report_steps = int(report_interval_ps / dt_ps)`. -/
def report_steps (cfg : MDSimulationSettings) : Int :=
  pyInt (cfg.report_interval_ps / cfg.dt_ps)

/-- `nsteps = int(simulation_length_ns / dt_ps)`; the unit library converts
nanoseconds to picoseconds, hence the factor 1000. -/
def nsteps (cfg : MDSimulationSettings) : Int :=
  pyInt (cfg.simulation_length_ns * 1000 / cfg.dt_ps)

/-- Number of frames the DCD reporter writes during `sim.step(nsteps)` when
reporting every `report_steps` steps. -/
def nframesOf (cfg : MDSimulationSettings) : Nat :=
  (nsteps cfg).toNat / (report_steps cfg).toNat

/-- The reporter setup at the start of `run`: `self.sim.reporters = []`
(clearing any reporters cached from a previous run) followed by appending
the DCD reporter and the state-data reporter for this run. -/
def setup_reporters (traj_file log_file : FsPath) (rs : Int)
    (s : Simulation) : Simulation :=
  { s with reporters :=
      ([] : List Reporter)
        ++ [Reporter.dcd traj_file rs]
        ++ [Reporter.stateData log_file rs] }

/-! ### Trajectory analysis (`analyze_simulation`) -/

/-- A point in 3-space (an atom position or an orthorhombic box edge
triple). -/
abbrev Pt := ℚ × ℚ × ℚ

/-- One trajectory frame after alignment: the selected atoms' positions and
the frame's box dimensions. -/
structure Frame where
  positions : List Pt
  dimensions : Pt
deriving DecidableEq, Repr

/-- Wrap a coordinate difference into `[0, L)` (for `L > 0`). -/
def wrapCoord (d L : ℚ) : ℚ :=
  d - L * (⌊d / L⌋ : ℤ)

/-- Minimum-image distance along one box edge. -/
def pbcDist1 (x y L : ℚ) : ℚ :=
  let d := wrapCoord (x - y) L
  min d (L - d)

/-- Squared minimum-image distance between two points under an orthorhombic
box. -/
def pbcDistSq (p q : Pt) (box : Pt) : ℚ :=
  pbcDist1 p.1 q.1 box.1 * pbcDist1 p.1 q.1 box.1
    + pbcDist1 p.2.1 q.2.1 box.2.1 * pbcDist1 p.2.1 q.2.1 box.2.1
    + pbcDist1 p.2.2 q.2.2 box.2.2 * pbcDist1 p.2.2 q.2.2 box.2.2

/-- The contract of `MDAnalysis.analysis.distances.contact_matrix(...,
returntype="sparse")` followed by `.tocoo()`: the coordinates `(i, j)` of
the stored entries, i.e. the pairs of selected atoms whose minimum-image
distance under the given box is within the cutoff, in row-major order. -/
def contactPairs (pos : List Pt) (cutoff : ℚ) (box : Pt) :
    List (Nat × Nat) :=
  (List.range pos.length).flatMap fun i =>
    (List.range pos.length).filterMap fun j =>
      match pos.get? i, pos.get? j with
      | some p, some q =>
          if pbcDistSq p q box < cutoff * cutoff then some (i, j) else none
      | _, _ => none

/-- `.astype("int16")` on a nonnegative index: wrap into the signed 16-bit
range. -/
def int16cast (n : Nat) : Int :=
  ((n : Int) + 32768) % 65536 - 32768

/-- The box the analysis loop uses: `box = mda_u.atoms.dimensions` is read
once before the per-frame loop; after the alignment pass the trajectory
is rewound to its first frame, so this is the first frame's box (a zero
default for the impossible empty trajectory). -/
def analyze_box : List Frame → Pt
  | [] => (0, 0, 0)
  | f :: _ => f.dimensions

/-- The row-index array stored for one frame: `coo.row.astype("int16")`. -/
def frameRows (cutoff : ℚ) (box : Pt) (f : Frame) : List Int :=
  (contactPairs f.positions cutoff box).map fun p => int16cast p.1

/-- The column-index array stored for one frame:
`coo.col.astype("int16")`. -/
def frameCols (cutoff : ℚ) (box : Pt) (f : Frame) : List Int :=
  (contactPairs f.positions cutoff box).map fun p => int16cast p.2

/-- `MDSimulationApplication.analyze_simulation` after the alignment pass:
iterate over the frames of the aligned trajectory accumulating per-frame
row/column contact-index arrays and RMSD values, then concatenate each
frame's row and column arrays (row block first).  The RMSD library call
(`MDAnalysis.analysis.rms.rmsd` against the fixed reference positions) is
an abstract parameter. -/
def analyze_simulation (rmsdFn : List Pt → List Pt → ℚ) (refPos : List Pt)
    (cutoff : ℚ) (frames : List Frame) : List (List Int) × List ℚ :=
  let box := analyze_box frames
  let rows := frames.map (frameRows cutoff box)
  let cols := frames.map (frameCols cutoff box)
  let rmsds := frames.map fun f => rmsdFn f.positions refPos
  let contact_maps := (rows.zip cols).map fun rc => rc.1 ++ rc.2
  (contact_maps, rmsds)

/-! ### The composed `run` entry point -/

/-- The outputs of one `run` call: the final application state and the two
analysis artifacts. -/
structure RunResult where
  state : AppState
  contact_maps : List (List Int)
  rmsds : List ℚ

/-- `MDSimulationApplication.run`: initialize from the start condition,
compute the report/step counts, reset and attach the reporters, step the
simulation (the engine contract: the DCD reporter writes one frame every
`report_steps` steps, `gen k` being the k-th aligned frame it produces),
assert a structure file is cached, analyze the trajectory and return the
artifacts. -/
def runApp (avail : PlatformAvail) (cfg : MDSimulationSettings)
    (gen : Nat → Frame) (rmsdFn : List Pt → List Pt → ℚ) (refPos : List Pt)
    (st : AppState) (start : SimulationStartType) :
    Except AppError RunResult :=
  match initialize_run avail cfg st start with
  | Except.error e => Except.error e
  | Except.ok (st1, _acts) =>
      match st1.sim, st1.pdb_file with
      | some s, some _ =>
          let rs := report_steps cfg
          let traj_file : FsPath := ⟨st1.workdir, "sim.dcd"⟩
          let log_file : FsPath := ⟨st1.workdir, "sim.log"⟩
          let s1 := setup_reporters traj_file log_file rs s
          let frames := (List.range (nframesOf cfg)).map gen
          let ar := analyze_simulation rmsdFn refPos cfg.cutoff_angstrom frames
          Except.ok ⟨{ st1 with sim := some s1 }, ar.1, ar.2⟩
      | _, _ => Except.error AppError.assertionError

/-! ### Concrete example inputs shared by counterexamples and witnesses -/

/-- A machine with no accelerator: the probe falls through to CPU. -/
def cpuOnly : PlatformAvail := ⟨false, false⟩

/-- A machine whose CUDA probe succeeds. -/
def cudaAvail : PlatformAvail := ⟨true, false⟩

/-- A small implicit-solvent configuration. -/
def cfgImplicit : MDSimulationSettings :=
  { solvent_type := "implicit", gpu_index := 0, dt_ps := 1,
    temperature_kelvin := 300, heat_bath_friction_coef := 1,
    report_interval_ps := 1, simulation_length_ns := 1 / 1000,
    mda_selection := "protein and name CA", cutoff_angstrom := 8 }

/-- A fresh application state: nothing cached yet. -/
def exState0 : AppState := ⟨none, none, none, "wd"⟩

/-- An engine as cached by a previous run that started from
`run-old/x.pdb`. -/
def exEngine : Simulation :=
  { pdb_file := ⟨"run-old", "x.pdb"⟩, top_file := none,
    solvent_type := "implicit", platformName := "CPU",
    platformProperties := [], dt_ps := 1, temperature_kelvin := 300,
    heat_bath_friction_coef := 1, reporters := [] }

/-- A state carrying a cached engine and cached file paths from a previous
run directory, with the current working directory being a fresh one. -/
def exC1_state : AppState :=
  ⟨some exEngine, some ⟨"run-old", "x.pdb"⟩, none, "run-new"⟩

/-- The state `init_continue_simulation` produces from `exC1_state`. -/
def exC1_after : AppState :=
  { exC1_state with pdb_file := some ⟨"run-new", "x.pdb"⟩ }

/-- The file-creation trace `init_continue_simulation` produces from
`exC1_state`. -/
def exC1_acts : List Action :=
  [Action.copyToWorkdir ⟨"run-old", "x.pdb"⟩ ⟨"run-new", "x.pdb"⟩]

/-! ### Claim C1 -/

/-- C1, as stated, is false: on a Continue start the manager does *not*
keep the cached structure path verbatim and does create a new file — with a
cached structure at `run-old/x.pdb` and working directory `run-new`, the
cached path is rebound to the fresh copy `run-new/x.pdb` and a copy action
is performed. -/
theorem claim_C1_counterexample :
    init_continue_simulation exC1_state = Except.ok (exC1_after, exC1_acts)
      ∧ exC1_after.pdb_file ≠ exC1_state.pdb_file
      ∧ exC1_acts ≠ [] := by
  refine ⟨rfl, by decide, by decide⟩

/-- C1 (amended): for every run whose start condition is Continue, the
manager reuses the cached simulation object unchanged, but it copies the
cached structure/topology files into the current working directory and
rebinds the cached paths to those copies (so new files are created whenever
the cached files do not already live in the working directory). -/
theorem claim_C1 (st st' : AppState) (acts : List Action)
    (h : init_continue_simulation st = Except.ok (st', acts)) :
    st'.sim = st.sim
      ∧ (∀ p, st.pdb_file = some p →
          st'.pdb_file = some ⟨st.workdir, p.name⟩
            ∧ Action.copyToWorkdir p ⟨st.workdir, p.name⟩ ∈ acts)
      ∧ (∀ t, st.top_file = some t →
          st'.top_file = some ⟨st.workdir, t.name⟩)
      ∧ st'.workdir = st.workdir := by
  unfold init_continue_simulation at h
  cases hs : st.sim with
  | none => rw [hs] at h; exact absurd h (by simp)
  | some s =>
      rw [hs] at h
      cases hp : st.pdb_file with
      | none => rw [hp] at h; exact absurd h (by simp)
      | some p =>
          rw [hp] at h
          rw [Except.ok.injEq, Prod.mk.injEq] at h
          obtain ⟨h1, h2⟩ := h
          subst h1; subst h2
          refine ⟨rfl, ?_, ?_, rfl⟩
          · intro p' hp'
            rw [Option.some.injEq] at hp'
            subst hp'
            exact ⟨rfl, by simp [copyActions]⟩
          · intro t ht
            simp [copy_to_workdir, ht]

/-- Witness for C1 at the concrete cached state `exC1_state`. -/
theorem claim_C1_witness :
    exC1_after.sim = exC1_state.sim
      ∧ (∀ p, exC1_state.pdb_file = some p →
          exC1_after.pdb_file = some ⟨exC1_state.workdir, p.name⟩
            ∧ Action.copyToWorkdir p ⟨exC1_state.workdir, p.name⟩ ∈ exC1_acts)
      ∧ (∀ t, exC1_state.top_file = some t →
          exC1_after.top_file = some ⟨exC1_state.workdir, t.name⟩)
      ∧ exC1_after.workdir = exC1_state.workdir :=
  claim_C1 exC1_state exC1_after exC1_acts rfl

/-! ### Claim C3 -/

/-- C3: calling `initialize_run` with a Continue start condition when no
simulation is cached fails with the lifecycle-misuse `RuntimeError`; no new
simulation is constructed (the call returns an error, not a state). -/
theorem claim_C3 (avail : PlatformAvail) (cfg : MDSimulationSettings)
    (st : AppState) (h : st.sim = none) :
    initialize_run avail cfg st SimulationStartType.continueSimulation =
      Except.error (AppError.runtimeError
        "Tried to continue a simulation that does not exist.") := by
  simp [initialize_run, init_continue_simulation, h]

/-- Witness for C3 at the fresh state `exState0`. -/
theorem claim_C3_witness :
    initialize_run cpuOnly cfgImplicit exState0
        SimulationStartType.continueSimulation =
      Except.error (AppError.runtimeError
        "Tried to continue a simulation that does not exist.") :=
  claim_C3 cpuOnly cfgImplicit exState0 rfl

/-! ### Claim C4 -/

/-- The engine lifecycle events of a trace, in order (file operations
dropped). -/
def engineActions (acts : List Action) : List Action :=
  acts.filter fun a =>
    decide (a = Action.releaseEngine ∨ a = Action.buildEngine
      ∨ a = Action.installEngine)

theorem engineActions_append (a b : List Action) :
    engineActions (a ++ b) = engineActions a ++ engineActions b :=
  List.filter_append a b

theorem engineActions_copy (w : String) (o : Option FsPath) :
    engineActions (copyActions w o) = [] := by
  cases o <;> rfl

theorem engineActions_write (p : FsPath) (k : Nat) (o : FsPath) :
    engineActions [Action.writePdbFrame p k o] = [] := rfl

/-- Unfolding lemma for `init_simulation`: on success the new state is the
old one with a freshly configured engine installed, and the engine events
are release-of-old (when one was cached) followed by build and install. -/
theorem init_simulation_spec (avail : PlatformAvail)
    (cfg : MDSimulationSettings) (st : AppState) (p : FsPath)
    (t : Option FsPath) (st' : AppState) (acts : List Action)
    (h : init_simulation avail cfg st p t = Except.ok (st', acts)) :
    ∃ e, configure_simulation avail p t cfg.solvent_type 0 cfg.dt_ps
          cfg.temperature_kelvin cfg.heat_bath_friction_coef
          "MonteCarloBarostat" = Except.ok e
      ∧ st' = { st with sim := some e }
      ∧ acts = (if st.sim.isSome then [Action.releaseEngine] else [])
          ++ [Action.buildEngine, Action.installEngine] := by
  unfold init_simulation at h
  cases hc : configure_simulation avail p t cfg.solvent_type 0 cfg.dt_ps
      cfg.temperature_kelvin cfg.heat_bath_friction_coef
      "MonteCarloBarostat" with
  | error e => rw [hc] at h; exact absurd h (by simp)
  | ok s =>
      rw [hc] at h
      rw [Except.ok.injEq, Prod.mk.injEq] at h
      exact ⟨s, rfl, h.1.symm, h.2.symm⟩

/-- Unfolding lemma for `init_continue_simulation`: on success the cached
engine is untouched and only file copies are performed. -/
theorem init_continue_spec (st st' : AppState) (acts : List Action)
    (h : init_continue_simulation st = Except.ok (st', acts)) :
    st'.sim = st.sim ∧ engineActions acts = [] := by
  unfold init_continue_simulation at h
  cases hs : st.sim with
  | none => rw [hs] at h; exact absurd h (by simp)
  | some s =>
      rw [hs] at h
      cases hp : st.pdb_file with
      | none => rw [hp] at h; exact absurd h (by simp)
      | some p =>
          rw [hp] at h
          rw [Except.ok.injEq, Prod.mk.injEq] at h
          obtain ⟨h1, h2⟩ := h
          subst h1; subst h2
          exact ⟨rfl, by
            simp [engineActions_append, engineActions_copy]⟩

/-- The concrete start condition used to exhibit the replacement order. -/
def exC4_start : SimulationStartType :=
  SimulationStartType.simulationFromPDB ⟨"in", "y.pdb"⟩ none

/-- The result of replacing the cached engine of `exC1_state`. -/
def exC4_out : AppState × List Action :=
  match initialize_run cpuOnly cfgImplicit exC1_state exC4_start with
  | Except.ok v => v
  | Except.error _ => (exState0, [])

/-- C4, as stated, is false in its ordering clause: replacing the cached
engine of `exC1_state` performs release-of-old *before* build-and-install
of the new engine, not "build new, release old, install new". -/
theorem claim_C4_counterexample :
    initialize_run cpuOnly cfgImplicit exC1_state exC4_start =
        Except.ok exC4_out
      ∧ engineActions exC4_out.2 =
          [Action.releaseEngine, Action.buildEngine, Action.installEngine]
      ∧ engineActions exC4_out.2 ≠
          [Action.buildEngine, Action.releaseEngine, Action.installEngine] := by
  refine ⟨rfl, by decide, by decide⟩

/-- C4 (amended): every successful `initialize_run` leaves either the
previous cached engine unchanged (Continue performs no engine event) or a
freshly configured engine — never a partially built one; when a cached
engine is replaced the order is: release the old engine, then build and
install the new one. -/
theorem claim_C4 (avail : PlatformAvail) (cfg : MDSimulationSettings)
    (st : AppState) (start : SimulationStartType) (st' : AppState)
    (acts : List Action)
    (h : initialize_run avail cfg st start = Except.ok (st', acts)) :
    (st'.sim = st.sim ∧ engineActions acts = [])
      ∨ (∃ p t e,
          configure_simulation avail p t cfg.solvent_type 0 cfg.dt_ps
              cfg.temperature_kelvin cfg.heat_bath_friction_coef
              "MonteCarloBarostat" = Except.ok e
            ∧ st'.sim = some e
            ∧ engineActions acts =
                (if st.sim.isSome then [Action.releaseEngine] else [])
                  ++ [Action.buildEngine, Action.installEngine]) := by
  cases start with
  | continueSimulation =>
      left
      exact init_continue_spec st st' acts h
  | simulationFromPDB p t =>
      right
      have h2 : init_simulation_from_pdb avail cfg st p t =
          Except.ok (st', acts) := h
      unfold init_simulation_from_pdb at h2
      simp only [] at h2
      split at h2
      · exact absurd h2 (by simp)
      · rename_i p' hp'
        split at h2
        · exact absurd h2 (by simp)
        · rename_i st2 acts2 hi
          rw [Except.ok.injEq, Prod.mk.injEq] at h2
          obtain ⟨h1, hacts⟩ := h2
          subst h1
          obtain ⟨e, he, hstEq, hacts2⟩ :=
            init_simulation_spec _ _ _ _ _ _ _ hi
          dsimp only at hacts2
          refine ⟨p', _, e, he, by rw [hstEq], ?_⟩
          rw [← hacts, hacts2, engineActions_append, engineActions_append,
            engineActions_copy, engineActions_copy]
          cases hb : st.sim.isSome <;> simp [hb] <;> decide
  | simulationFromRestart d f =>
      right
      have h2 : init_simulation_from_restart avail cfg st d f =
          Except.ok (st', acts) := h
      unfold init_simulation_from_restart at h2
      simp only [] at h2
      split at h2
      · exact absurd h2 (by simp)
      · rename_i old_pdb hg1
        split at h2
        · exact absurd h2 (by simp)
        · rename_i dcd hg2
          split at h2
          · split at h2
            · exact absurd h2 (by simp)
            · rename_i st3 acts3 hi
              rw [Except.ok.injEq, Prod.mk.injEq] at h2
              obtain ⟨h1, hacts⟩ := h2
              subst h1
              obtain ⟨e, he, hstEq, hacts2⟩ :=
                init_simulation_spec _ _ _ _ _ _ _ hi
              dsimp only at hacts2
              refine ⟨_, _, e, he, by rw [hstEq], ?_⟩
              rw [← hacts, hacts2, engineActions_append, engineActions_append,
                engineActions_copy, engineActions_write]
              cases hb : st.sim.isSome <;> simp [hb] <;> decide
          · exact absurd h2 (by simp)

/-- Witness for C4: replacing the cached engine of `exC1_state` lands in
the freshly-built disjunct with the release-first event order. -/
theorem claim_C4_witness :
    (exC4_out.1.sim = exC1_state.sim ∧ engineActions exC4_out.2 = [])
      ∨ (∃ p t e,
          configure_simulation cpuOnly p t cfgImplicit.solvent_type 0
              cfgImplicit.dt_ps cfgImplicit.temperature_kelvin
              cfgImplicit.heat_bath_friction_coef "MonteCarloBarostat" =
            Except.ok e
            ∧ exC4_out.1.sim = some e
            ∧ engineActions exC4_out.2 =
                (if exC1_state.sim.isSome then [Action.releaseEngine] else [])
                  ++ [Action.buildEngine, Action.installEngine]) :=
  claim_C4 cpuOnly cfgImplicit exC1_state exC4_start exC4_out.1 exC4_out.2 rfl

/-! ### Claim C9 -/

/-- Every successfully configured engine carries exactly the backend
properties chosen by the platform probe for the device index it was
given. -/
theorem configure_simulation_props (avail : PlatformAvail) (p : FsPath)
    (t : Option FsPath) (sv : String) (g : Nat) (dt tk fr : ℚ)
    (bar : String) (e : Simulation)
    (h : configure_simulation avail p t sv g dt tk fr bar = Except.ok e) :
    e.platformProperties = (select_platform avail g).2 := by
  unfold configure_simulation at h
  split at h
  · rw [Except.ok.injEq] at h; rw [← h]
  · split at h
    · split at h
      · exact absurd h (by simp)
      · split at h
        · rw [Except.ok.injEq] at h; rw [← h]
        · exact absurd h (by simp)
    · exact absurd h (by simp)

/-- When an accelerator probe succeeds, the backend properties contain the
device-index entry for the requested index. -/
theorem select_platform_device (avail : PlatformAvail) (g : Nat)
    (hacc : avail.cuda = true ∨ avail.opencl = true) :
    ("DeviceIndex", toString g) ∈ (select_platform avail g).2 := by
  unfold select_platform
  cases hc : avail.cuda with
  | true => simp
  | false =>
      rcases hacc with h | h
      · rw [hc] at h; exact absurd h (by simp)
      · simp [h]

/-- A settings object whose (spec-modelled) compute-device index is 3. -/
def exC9_cfg : MDSimulationSettings := { cfgImplicit with gpu_index := 3 }

/-- The engine built by `init_simulation` under `exC9_cfg` on a CUDA
machine. -/
def exC9_out : AppState × List Action :=
  match init_simulation cudaAvail exC9_cfg exState0 ⟨"wd", "a.pdb"⟩ none with
  | Except.ok v => v
  | Except.error _ => (exState0, [])

/-- The engine `init_simulation` installs under `exC9_cfg` on the CUDA
machine. -/
def exC9_engine : Simulation :=
  match exC9_out.1.sim with
  | some s => s
  | none => exEngine

/-- C9, as stated, is false: with a settings object carrying device index 3
on a machine whose CUDA probe succeeds, the engine built by
`init_simulation` selects device "0" and its backend properties do not
mention device "3" — the manager passes the literal 0, not the configured
index. -/
theorem claim_C9_counterexample :
    init_simulation cudaAvail exC9_cfg exState0 ⟨"wd", "a.pdb"⟩ none =
        Except.ok exC9_out
      ∧ exC9_out.1.sim = some exC9_engine
      ∧ exC9_engine.platformProperties =
          [("DeviceIndex", "0"), ("CudaPrecision", "mixed")]
      ∧ ("DeviceIndex", toString exC9_cfg.gpu_index) ∉
          exC9_engine.platformProperties := by
  refine ⟨rfl, rfl, rfl, by decide⟩

/-- C9 (amended): the device index used for backend selection is the
literal 0 hardwired in `init_simulation`, independent of the settings
object; whenever an accelerator backend is selected, the engine's backend
properties carry the device-index entry "0". -/
theorem claim_C9 (avail : PlatformAvail) (cfg : MDSimulationSettings)
    (st : AppState) (p : FsPath) (t : Option FsPath) (st' : AppState)
    (acts : List Action) (e : Simulation)
    (h : init_simulation avail cfg st p t = Except.ok (st', acts))
    (hs : st'.sim = some e)
    (hacc : avail.cuda = true ∨ avail.opencl = true) :
    ("DeviceIndex", "0") ∈ e.platformProperties := by
  obtain ⟨e', he, hstEq, _⟩ := init_simulation_spec _ _ _ _ _ _ _ h
  have : st'.sim = some e' := by rw [hstEq]
  rw [hs, Option.some.injEq] at this
  subst this
  rw [configure_simulation_props _ _ _ _ _ _ _ _ _ _ he]
  exact select_platform_device avail 0 hacc

/-- Witness for C9 at the concrete CUDA machine and `exC9_cfg`. -/
theorem claim_C9_witness :
    ("DeviceIndex", "0") ∈ exC9_engine.platformProperties :=
  claim_C9 cudaAvail exC9_cfg exState0 ⟨"wd", "a.pdb"⟩ none
    exC9_out.1 exC9_out.2 exC9_engine rfl rfl (Or.inl rfl)

/-- Every successfully configured engine records the structure file it was
given as its positions source. -/
theorem configure_simulation_pdb (avail : PlatformAvail) (p : FsPath)
    (t : Option FsPath) (sv : String) (g : Nat) (dt tk fr : ℚ)
    (bar : String) (e : Simulation)
    (h : configure_simulation avail p t sv g dt tk fr bar = Except.ok e) :
    e.pdb_file = p := by
  unfold configure_simulation at h
  split at h
  · rw [Except.ok.injEq] at h; rw [← h]
  · split at h
    · split at h
      · exact absurd h (by simp)
      · split at h
        · rw [Except.ok.injEq] at h; rw [← h]
        · exact absurd h (by simp)
    · exact absurd h (by simp)

/-! ### Claim C7 -/

/-- C7: a successful FromRestart initialization writes the new single-frame
structure file `<source-run-identifier>_frame<6-digit-zero-padded-index>.pdb`
in the working directory and caches its path, resolves the optional topology
by trying `*.top` first and `*.prmtop` second (first match wins), and builds
the new engine from the extracted file, which lives in the working
directory and hence differs from every file of the source run directory. -/
theorem claim_C7 (avail : PlatformAvail) (cfg : MDSimulationSettings)
    (st : AppState) (d : SimDir) (f : Nat) (st' : AppState)
    (acts : List Action)
    (h : init_simulation_from_restart avail cfg st d f =
      Except.ok (st', acts)) :
    st'.pdb_file = some ⟨st.workdir, d.name ++ "_frame" ++ pad6 f ++ ".pdb"⟩
      ∧ st'.top_file = copy_to_workdir st.workdir
          ((match (globExt d ".top").head? with
            | some t => some t
            | none => (globExt d ".prmtop").head?).map
              (fun fn => (⟨d.name, fn⟩ : FsPath)))
      ∧ (∃ e, st'.sim = some e
          ∧ e.pdb_file =
              ⟨st.workdir, d.name ++ "_frame" ++ pad6 f ++ ".pdb"⟩)
      ∧ (st.workdir ≠ d.name →
          ∀ fn, (⟨st.workdir, d.name ++ "_frame" ++ pad6 f ++ ".pdb"⟩ :
            FsPath) ≠ ⟨d.name, fn⟩) := by
  unfold init_simulation_from_restart at h
  simp only [] at h
  split at h
  · exact absurd h (by simp)
  · rename_i old_pdb hg1
    split at h
    · exact absurd h (by simp)
    · rename_i dcd hg2
      split at h
      · split at h
        · exact absurd h (by simp)
        · rename_i st3 acts3 hi
          rw [Except.ok.injEq, Prod.mk.injEq] at h
          obtain ⟨h1, hacts⟩ := h
          subst h1
          obtain ⟨e, he, hstEq, _⟩ := init_simulation_spec _ _ _ _ _ _ _ hi
          have hpdb : e.pdb_file =
              ⟨st.workdir, d.name ++ "_frame" ++ pad6 f ++ ".pdb"⟩ := by
            have := configure_simulation_pdb _ _ _ _ _ _ _ _ _ _ he
            exact this
          refine ⟨by rw [hstEq], by rw [hstEq], ⟨e, by rw [hstEq], hpdb⟩, ?_⟩
          intro hne fn hEq
          rw [FsPath.mk.injEq] at hEq
          exact hne hEq.1
      · exact absurd h (by simp)

/-- The source run directory of the restart scenario: identifier `run-abc`,
one structure file, one 10-frame trajectory. -/
def exC7_dir : SimDir := ⟨"run-abc", ["run-abc.pdb", "sim.dcd"], 10⟩

/-- The state and trace of restarting from frame 3 of `exC7_dir`. -/
def exC7_out : AppState × List Action :=
  match init_simulation_from_restart cpuOnly cfgImplicit exState0
      exC7_dir 3 with
  | Except.ok v => v
  | Except.error _ => (exState0, [])

/-- Witness for C7: frame 3 of a 10-frame source trajectory yields the
structure file `run-abc_frame000003.pdb`. -/
theorem claim_C7_witness :
    exC7_out.1.pdb_file =
        some ⟨exState0.workdir,
          exC7_dir.name ++ "_frame" ++ pad6 3 ++ ".pdb"⟩
      ∧ exC7_out.1.top_file = copy_to_workdir exState0.workdir
          ((match (globExt exC7_dir ".top").head? with
            | some t => some t
            | none => (globExt exC7_dir ".prmtop").head?).map
              (fun fn => (⟨exC7_dir.name, fn⟩ : FsPath)))
      ∧ (∃ e, exC7_out.1.sim = some e
          ∧ e.pdb_file =
              ⟨exState0.workdir,
                exC7_dir.name ++ "_frame" ++ pad6 3 ++ ".pdb"⟩)
      ∧ (exState0.workdir ≠ exC7_dir.name →
          ∀ fn, (⟨exState0.workdir,
              exC7_dir.name ++ "_frame" ++ pad6 3 ++ ".pdb"⟩ :
            FsPath) ≠ ⟨exC7_dir.name, fn⟩) :=
  claim_C7 cpuOnly cfgImplicit exState0 exC7_dir 3
    exC7_out.1 exC7_out.2 rfl

/-! ### Claim C6 -/

/-- The per-frame shape of the contact-map artifact: each entry is the
frame's row-index array concatenated with its column-index array, all
computed with the single box read before the loop. -/
theorem analyze_fst_eq (rmsdFn : List Pt → List Pt → ℚ) (refPos : List Pt)
    (cutoff : ℚ) (frames : List Frame) :
    (analyze_simulation rmsdFn refPos cutoff frames).1 =
      frames.map (fun f =>
        frameRows cutoff (analyze_box frames) f
          ++ frameCols cutoff (analyze_box frames) f) := by
  unfold analyze_simulation
  simp only [List.zip_map']
  rw [List.map_map]
  rfl

/-- C6: the contact-map and RMSD artifacts have exactly one entry per
frame, in frame order, and the k-th contact-map entry is the frame-k
row-index array concatenated with the frame-k column-index array. -/
theorem claim_C6 (rmsdFn : List Pt → List Pt → ℚ) (refPos : List Pt)
    (cutoff : ℚ) (frames : List Frame) (k : Nat) (fr : Frame)
    (h : frames.get? k = some fr) :
    (analyze_simulation rmsdFn refPos cutoff frames).1.length = frames.length
      ∧ (analyze_simulation rmsdFn refPos cutoff frames).2.length =
          frames.length
      ∧ (analyze_simulation rmsdFn refPos cutoff frames).1.get? k =
          some (frameRows cutoff (analyze_box frames) fr
            ++ frameCols cutoff (analyze_box frames) fr) := by
  refine ⟨?_, ?_, ?_⟩
  · rw [analyze_fst_eq]; simp
  · unfold analyze_simulation; simp
  · rw [analyze_fst_eq, List.get?_map, h]; rfl

/-- A two-frame trajectory used in witnesses: one atom pair within the
cutoff, one outside. -/
def exFrameA : Frame := ⟨[(0, 0, 0), (1, 0, 0)], (10, 10, 10)⟩

/-- Second frame of the two-frame witness trajectory. -/
def exFrameB : Frame := ⟨[(0, 0, 0), (5, 0, 0)], (10, 10, 10)⟩

/-- The constant-zero stand-in for the external RMSD library call. -/
def rmsdZero : List Pt → List Pt → ℚ := fun _ _ => 0

/-- Witness for C6 on the concrete two-frame trajectory at frame index 1. -/
theorem claim_C6_witness :
    (analyze_simulation rmsdZero [] 2 [exFrameA, exFrameB]).1.length =
        [exFrameA, exFrameB].length
      ∧ (analyze_simulation rmsdZero [] 2 [exFrameA, exFrameB]).2.length =
          [exFrameA, exFrameB].length
      ∧ (analyze_simulation rmsdZero [] 2 [exFrameA, exFrameB]).1.get? 1 =
          some (frameRows 2 (analyze_box [exFrameA, exFrameB]) exFrameB
            ++ frameCols 2 (analyze_box [exFrameA, exFrameB]) exFrameB) :=
  claim_C6 rmsdZero [] 2 [exFrameA, exFrameB] 1 exFrameB rfl

/-! ### Claim C8 -/

/-- Indices emitted by the sparse contact structure are bounded by the
selected atom count. -/
theorem contactPairs_lt (pos : List Pt) (cutoff : ℚ) (box : Pt)
    (i j : Nat) (hmem : (i, j) ∈ contactPairs pos cutoff box) :
    i < pos.length ∧ j < pos.length := by
  unfold contactPairs at hmem
  rw [List.mem_flatMap] at hmem
  obtain ⟨i', hi', hmem⟩ := hmem
  rw [List.mem_filterMap] at hmem
  obtain ⟨j', hj', heq⟩ := hmem
  rw [List.mem_range] at hi' hj'
  cases hgi : pos.get? i' with
  | none => rw [hgi] at heq; exact absurd heq (by simp)
  | some p =>
      cases hgj : pos.get? j' with
      | none => rw [hgi, hgj] at heq; exact absurd heq (by simp)
      | some q =>
          rw [hgi, hgj] at heq
          dsimp only at heq
          split at heq
          · rw [Option.some.injEq, Prod.mk.injEq] at heq
            obtain ⟨hii, hjj⟩ := heq
            subst hii; subst hjj
            exact ⟨hi', hj'⟩
          · exact absurd heq (by simp)

/-- A nonnegative index strictly below the signed 16-bit bound survives the
16-bit cast unchanged. -/
theorem int16cast_eq (n : Nat) (h : n < 32768) : int16cast n = n := by
  unfold int16cast
  omega

/-- C8: the stored contact row/column index arrays use the compact 16-bit
integer width, and provided the selected atom count does not exceed 32767
every stored index equals the original atom index exactly — there is no
silent overflow. -/
theorem claim_C8 (cutoff : ℚ) (box : Pt) (f : Frame)
    (hcount : f.positions.length ≤ 32767) :
    frameRows cutoff box f =
        (contactPairs f.positions cutoff box).map (fun pr => (pr.1 : Int))
      ∧ frameCols cutoff box f =
        (contactPairs f.positions cutoff box).map
          (fun pr => (pr.2 : Int)) := by
  constructor
  · unfold frameRows
    apply List.map_congr_left
    intro pr hpr
    obtain ⟨h1, _⟩ := contactPairs_lt _ _ _ pr.1 pr.2 (by
      simpa using hpr)
    exact int16cast_eq pr.1 (by omega)
  · unfold frameCols
    apply List.map_congr_left
    intro pr hpr
    obtain ⟨_, h2⟩ := contactPairs_lt _ _ _ pr.1 pr.2 (by
      simpa using hpr)
    exact int16cast_eq pr.2 (by omega)

/-- Witness for C8 on the concrete two-atom frame. -/
theorem claim_C8_witness :
    frameRows 2 (10, 10, 10) exFrameA =
        (contactPairs exFrameA.positions 2 (10, 10, 10)).map
          (fun pr => (pr.1 : Int))
      ∧ frameCols 2 (10, 10, 10) exFrameA =
        (contactPairs exFrameA.positions 2 (10, 10, 10)).map
          (fun pr => (pr.2 : Int)) :=
  claim_C8 2 (10, 10, 10) exFrameA (by decide)

/-! ### Claim C2 -/

/-- A frame whose box matches the analyzed trajectory's first frame. -/
def exC2_frame0 : Frame := ⟨[(0, 0, 0), (3, 0, 0)], (10, 10, 10)⟩

/-- A later frame with a different (smaller) instantaneous box, as produced
by pressure coupling. -/
def exC2_frame1 : Frame := ⟨[(0, 0, 0), (3, 0, 0)], (4, 10, 10)⟩

/-- C2 fails on the code: the analysis reads the box once before the frame
loop, so frame 1 of this two-frame trajectory is analyzed with frame 0's
box `(10,10,10)` and yields the contact entry `[0,1,0,1]`, while frame 1's
own instantaneous box `(4,10,10)` would wrap the 3 Å separation to 1 Å and
yield `[0,0,1,1,0,1,0,1]`. -/
theorem claim_C2 :
    (analyze_simulation rmsdZero [] 2 [exC2_frame0, exC2_frame1]).1.get? 1 =
        some (frameRows 2 exC2_frame0.dimensions exC2_frame1
          ++ frameCols 2 exC2_frame0.dimensions exC2_frame1)
      ∧ frameRows 2 exC2_frame0.dimensions exC2_frame1
          ++ frameCols 2 exC2_frame0.dimensions exC2_frame1 =
          [0, 1, 0, 1]
      ∧ frameRows 2 exC2_frame1.dimensions exC2_frame1
          ++ frameCols 2 exC2_frame1.dimensions exC2_frame1 =
          [0, 0, 1, 1, 0, 1, 0, 1]
      ∧ ([0, 1, 0, 1] : List Int) ≠ [0, 0, 1, 1, 0, 1, 0, 1] := by
  refine ⟨rfl, ?_, ?_, by decide⟩
  · norm_num [frameRows, frameCols, exC2_frame0, exC2_frame1, contactPairs,
      List.range_succ, List.filterMap_cons, List.filterMap_nil,
      pbcDistSq, pbcDist1, wrapCoord, min_def, int16cast]
  · norm_num [frameRows, frameCols, exC2_frame0, exC2_frame1, contactPairs,
      List.range_succ, List.filterMap_cons, List.filterMap_nil,
      pbcDistSq, pbcDist1, wrapCoord, min_def, int16cast]

/-! ### Claim C5 -/

/-- The end-to-end scenario settings: 0.002 ps timestep, 0.002 ps report
interval, 0.01 ns simulated duration. -/
def exC5_cfg : MDSimulationSettings :=
  { cfgImplicit with
      dt_ps := 1 / 500, report_interval_ps := 1 / 500,
      simulation_length_ns := 1 / 100 }

/-- C5, as stated, is false: with a 0.002 ps timestep and a 0.01 ns
duration the computed step count is 5000 (0.01 ns = 10 ps; 10 / 0.002 =
5000), not 5, and likewise 5000 reported frames. -/
theorem claim_C5_counterexample :
    nsteps exC5_cfg = 5000
      ∧ report_steps exC5_cfg = 1
      ∧ nframesOf exC5_cfg = 5000
      ∧ nsteps exC5_cfg ≠ 5 := by
  have hn : nsteps exC5_cfg = 5000 := by
    norm_num [nsteps, pyInt, exC5_cfg, cfgImplicit]
  have hr : report_steps exC5_cfg = 1 := by
    norm_num [report_steps, pyInt, exC5_cfg, cfgImplicit]
  refine ⟨hn, hr, ?_, by rw [hn]; decide⟩
  rw [nframesOf, hn, hr]
  decide

/-- C5 (amended): in the end-to-end scenario the run executes exactly 5000
integration steps and reports exactly 5000 trajectory frames (step count =
total simulated time divided by timestep, truncated; reporting every
report-interval/timestep steps), and for any trajectory with that many
frames the contact-map and RMSD artifacts each have 5000 entries. -/
theorem claim_C5 (rmsdFn : List Pt → List Pt → ℚ) (refPos : List Pt)
    (frames : List Frame)
    (h : frames.length = nframesOf exC5_cfg) :
    nsteps exC5_cfg = 5000
      ∧ nframesOf exC5_cfg = 5000
      ∧ (analyze_simulation rmsdFn refPos exC5_cfg.cutoff_angstrom
          frames).1.length = 5000
      ∧ (analyze_simulation rmsdFn refPos exC5_cfg.cutoff_angstrom
          frames).2.length = 5000 := by
  have hn : nsteps exC5_cfg = 5000 := by
    norm_num [nsteps, pyInt, exC5_cfg, cfgImplicit]
  have hr : report_steps exC5_cfg = 1 := by
    norm_num [report_steps, pyInt, exC5_cfg, cfgImplicit]
  have h5 : nframesOf exC5_cfg = 5000 := by rw [nframesOf, hn, hr]; decide
  refine ⟨hn, h5, ?_, ?_⟩
  · rw [analyze_fst_eq]; simp [h, h5]
  · unfold analyze_simulation; simp [h, h5]

/-- The 5000-frame trajectory of the end-to-end witness. -/
def exC5_frames : List Frame := List.replicate 5000 ⟨[], (0, 0, 0)⟩

/-- Witness for C5 on a concrete 5000-frame trajectory. -/
theorem claim_C5_witness :
    nsteps exC5_cfg = 5000
      ∧ nframesOf exC5_cfg = 5000
      ∧ (analyze_simulation rmsdZero [] exC5_cfg.cutoff_angstrom
          exC5_frames).1.length = 5000
      ∧ (analyze_simulation rmsdZero [] exC5_cfg.cutoff_angstrom
          exC5_frames).2.length = 5000 :=
  claim_C5 rmsdZero [] exC5_frames (by
    rw [exC5_frames, List.length_replicate, nframesOf]
    rw [show nsteps exC5_cfg = 5000 from by
      norm_num [nsteps, pyInt, exC5_cfg, cfgImplicit]]
    rw [show report_steps exC5_cfg = 1 from by
      norm_num [report_steps, pyInt, exC5_cfg, cfgImplicit]]
    decide)

/-! ### Claim C10 -/

/-- C10: a successful `run` leaves the cached simulation with exactly the
two reporters attached during that run — the DCD trajectory reporter and
the state-data log reporter, both at the run's report interval — never
reporters carried over from an earlier run. -/
theorem claim_C10 (avail : PlatformAvail) (cfg : MDSimulationSettings)
    (gen : Nat → Frame) (rmsdFn : List Pt → List Pt → ℚ)
    (refPos : List Pt) (st : AppState) (start : SimulationStartType)
    (r : RunResult)
    (h : runApp avail cfg gen rmsdFn refPos st start = Except.ok r) :
    ∃ s, r.state.sim = some s
      ∧ s.reporters =
          [Reporter.dcd ⟨r.state.workdir, "sim.dcd"⟩ (report_steps cfg),
            Reporter.stateData ⟨r.state.workdir, "sim.log"⟩
              (report_steps cfg)] := by
  unfold runApp at h
  split at h
  · exact absurd h (by simp)
  · rename_i st1 acts1
    simp only [] at h
    split at h
    · rename_i s p hs hp
      rw [Except.ok.injEq] at h
      subst h
      exact ⟨_, rfl, rfl⟩
    · exact absurd h (by simp)

/-- The start condition of the concrete one-frame run. -/
def exC10_start : SimulationStartType :=
  SimulationStartType.simulationFromPDB ⟨"in", "a.pdb"⟩ none

/-- The frame generator of the concrete one-frame run. -/
def gen0 : Nat → Frame := fun _ => ⟨[], (0, 0, 0)⟩

/-- The result of the concrete one-frame run. -/
def exC10_res : RunResult :=
  match runApp cpuOnly cfgImplicit gen0 rmsdZero [] exState0 exC10_start with
  | Except.ok r => r
  | Except.error _ => ⟨exState0, [], []⟩

/-- Witness for C10 on a concrete one-frame run. -/
theorem claim_C10_witness :
    ∃ s, exC10_res.state.sim = some s
      ∧ s.reporters =
          [Reporter.dcd ⟨exC10_res.state.workdir, "sim.dcd"⟩
              (report_steps cfgImplicit),
            Reporter.stateData ⟨exC10_res.state.workdir, "sim.log"⟩
              (report_steps cfgImplicit)] :=
  claim_C10 cpuOnly cfgImplicit gen0 rmsdZero [] exState0 exC10_start
    exC10_res rfl

end MDApp
